import Mathlib

/-!
Shallow embedding of the contract-signing token subsystem of the
rafc-nodejs-backend repository (src/routers/contratos_firma_tokens.ts).

Modelling conventions:
- Timestamps are natural numbers of milliseconds since the epoch
  (JavaScript `Date.getTime()`).  `toMySQLDateTime` truncates a `Date`
  to second precision before storing it; `truncSec` models the composite
  store-then-reparse round trip (truncate the millisecond count to a
  whole second).
- The SHA-256 collaborator is threaded as an abstract parameter
  `hash : String → String`; no claim depends on properties of the hash
  beyond it being a deterministic function.
- The MySQL tables `contratos_firma_tokens` and `contratos_jugadores`
  are association lists / lists of rows inside `DBState`.
- The `crypto.randomBytes` collaborator is modelled as a stream of draws
  (`draws : List String`); the source consumes exactly one draw per
  issuance request.
- A transaction is modelled as a function from the externally visible
  state to (result, externally visible state): every rollback path
  returns the original state, commit returns the mutated working state.
  Datastore errors inside the transaction are injected via `DBFail`.
-/

/-- Row of the `contratos_firma_tokens` table. Timestamp columns hold
second-truncated millisecond values (DATETIME round trip). -/
structure TokenRow where
  id : Nat
  rut_jugador : Int
  rut_apoderado : Int
  email_destino : Option String
  created_at : Nat
  expires_at : Nat
  used_at : Option Nat
  ip_created : Option String
  ip_used : Option String
deriving Repr, DecidableEq

/-- Row of the `contratos_jugadores` table. -/
structure ContratoRow where
  id : Nat
  rut_jugador : Int
  rut_apoderado : Int
  fecha_generacion : Nat
  contrato_base64 : String
deriving Repr, DecidableEq

/-- The datastore: token rows keyed by `token_hash` (the unique column),
and the append-only signed-contract table. -/
structure DBState where
  tokens : List (String × TokenRow)
  contratos : List ContratoRow
deriving Repr, DecidableEq

/-- Lookup `SELECT ... FROM contratos_firma_tokens WHERE token_hash = ? LIMIT 1`. -/
def findToken (st : DBState) (h : String) : Option TokenRow :=
  (st.tokens.find? (fun p => p.1 == h)).map Prod.snd

/-- `TokenParam`: `z.string().min(10).max(300)` — length bounds only. -/
def tokenParamOk (s : String) : Bool :=
  decide (10 ≤ s.length) && decide (s.length ≤ 300)

/-- `stripDataUrlPrefix` helper: drop everything up to and including the
first comma of the list. -/
def dropThruComma : List Char → List Char
  | [] => []
  | c :: cs => if c = ',' then cs else dropThruComma cs

/-- Source `stripDataUrlPrefix`: if the string starts with `data:` and
contains a comma (`indexOf > -1`), keep only what follows the first
comma. The `startsWith` test is expressed on the character list. -/
def stripDataUrlPfx (s : String) : String :=
  if "data:".toList.isPrefixOf s.toList && s.toList.contains ',' then
    String.mk (dropThruComma s.toList)
  else s

/-- Source `approxBytes`: `Math.floor((b64.length * 3) / 4)`. -/
def approxBytes (b64 : String) : Nat :=
  b64.length * 3 / 4

/-- Default of `MAX_BYTES` when `CONTRATOS_MAX_BYTES` is not set: 12 MiB. -/
def MAX_BYTES_default : Nat := 12 * 1024 * 1024

/-- Source `addMinutes`: shift a millisecond timestamp by whole minutes. -/
def addMinutes (dateMs : Nat) (minutes : Nat) : Nat :=
  dateMs + minutes * 60 * 1000

/-- Millisecond timestamp truncated to whole seconds: the value observed
after storing through `toMySQLDateTime` (which drops sub-second digits)
and parsing the DATETIME back with `new Date(...)`. -/
def truncSec (t : Nat) : Nat :=
  t / 1000 * 1000

/-- Outcome of `GET /contratos-firma-tokens/:token`. -/
inductive ValidateResult where
  | invalidToken
  | notFound
  | expired
  | alreadyUsed
  | valid (rut_jugador : Int) (rut_apoderado : Int)
      (email_destino : Option String) (expires_at : Nat)
deriving Repr, DecidableEq

/-- The `GET /:token` handler. Note the source checks `expired` before
`used`, and `expired` is the strict comparison
`new Date(t.expires_at).getTime() < Date.now()`. -/
def validateToken (hash : String → String) (st : DBState) (now : Nat)
    (raw : String) : ValidateResult :=
  if !tokenParamOk raw then .invalidToken
  else
    match findToken st (hash raw) with
    | none => .notFound
    | some t =>
      if t.expires_at < now then .expired
      else if t.used_at.isSome then .alreadyUsed
      else .valid t.rut_jugador t.rut_apoderado t.email_destino t.expires_at

/-- Abstract token status, for comparing the code with the status
function the spec describes. -/
inductive Status where
  | notFound
  | expired
  | alreadyUsed
  | valid
deriving Repr, DecidableEq

/-- Status actually derived by the code from `(now, expiresAt, usedAt)`:
expiry is tested before use, with a strict comparison. -/
def deriveStatus (now : Nat) (row : Option TokenRow) : Status :=
  match row with
  | none => .notFound
  | some t =>
    if t.expires_at < now then .expired
    else if t.used_at.isSome then .alreadyUsed
    else .valid

/-- Modelled from the spec: the status function the specification
prescribes — `usedAt` tested before expiry, and `now >= expiresAt`
counting as expired. -/
def deriveStatusSpec (now : Nat) (row : Option TokenRow) : Status :=
  match row with
  | none => .notFound
  | some t =>
    if t.used_at.isSome then .alreadyUsed
    else if t.expires_at ≤ now then .expired
    else .valid

/-- Status of a `ValidateResult` (all variants are a status here). -/
def statusOfValidate : ValidateResult → Option Status
  | .invalidToken => none
  | .notFound => some .notFound
  | .expired => some .expired
  | .alreadyUsed => some .alreadyUsed
  | .valid _ _ _ _ => some .valid

/-- `FirmarSchema` parse: `contrato_base64` must be a string of length at
least 10; `acepta_terminos` is coerced to a boolean and defaults to
`true` when the field is absent (zod `.optional().default(true)`). -/
def firmarSchemaParse (contrato : Option String) (acepta : Option Bool) :
    Option (String × Bool) :=
  match contrato with
  | none => none
  | some c => if c.length < 10 then none else some (c, acepta.getD true)

/-- Outcome of `POST /contratos-firma-tokens/:token/firmar`. -/
inductive FirmarResult where
  | badToken
  | badPayload
  | termsRejected
  | tooLarge
  | notFound
  | expired
  | alreadyUsed
  | fkViolation
  | serverError
  | success (contrato_id : Nat) (rut_jugador : Int) (rut_apoderado : Int)
deriving Repr, DecidableEq

/-- Injected datastore failure inside the signing transaction:
none, a foreign-key error (errno 1452) on the contract insert, a generic
error on the insert, on the `used_at` update, or at commit. -/
inductive DBFail where
  | noFail
  | atInsertFK
  | atInsert
  | atUpdate
  | atCommit
deriving Repr, DecidableEq

/-- Append a row to `contratos_jugadores`. -/
def insertContrato (st : DBState) (r : ContratoRow) : DBState :=
  { st with contratos := st.contratos ++ [r] }

/-- `UPDATE contratos_firma_tokens SET used_at = NOW(), ip_used = ? WHERE id = ?`
on the token list. -/
def markUsedL (l : List (String × TokenRow)) (tid : Nat) (now : Nat)
    (ip : Option String) : List (String × TokenRow) :=
  l.map (fun p =>
    if p.2.id = tid then (p.1, { p.2 with used_at := some now, ip_used := ip })
    else p)

/-- The same update lifted to the datastore. -/
def markUsed (st : DBState) (tid : Nat) (now : Nat) (ip : Option String) :
    DBState :=
  { st with tokens := markUsedL st.tokens tid now ip }

/-- The `POST /:token/firmar` handler. Every abort path (including the
catch block) rolls the transaction back, so it returns the original
state; only the commit path returns the mutated state. `newContractId`
models the auto-increment `insertId` of the contract insert. -/
def consumeAndSign (hash : String → String) (maxBytes : Nat) (fail : DBFail)
    (st : DBState) (now : Nat) (raw : String)
    (contrato : Option String) (acepta : Option Bool) (ip : Option String)
    (newContractId : Nat) : FirmarResult × DBState :=
  if !tokenParamOk raw then (.badToken, st)
  else
    match firmarSchemaParse contrato acepta with
    | none => (.badPayload, st)
    | some (c64, aceptaB) =>
      if !aceptaB then (.termsRejected, st)
      else
        let pureB64 := stripDataUrlPfx c64
        let bytes := approxBytes pureB64
        if maxBytes < bytes then (.tooLarge, st)
        else
          match findToken st (hash raw) with
          | none => (.notFound, st)
          | some t =>
            if t.expires_at < now then (.expired, st)
            else if t.used_at.isSome then (.alreadyUsed, st)
            else if fail = .atInsertFK then (.fkViolation, st)
            else if fail = .atInsert then (.serverError, st)
            else
              let st1 := insertContrato st
                ⟨newContractId, t.rut_jugador, t.rut_apoderado, now, pureB64⟩
              if fail = .atUpdate then (.serverError, st)
              else
                let st2 := markUsed st1 t.id now ip
                if fail = .atCommit then (.serverError, st)
                else (.success newContractId t.rut_jugador t.rut_apoderado, st2)

/-- True on the success outcome. -/
def isSuccess : FirmarResult → Bool
  | .success _ _ _ => true
  | _ => false

/-- Status observed by the consume re-validation step (pre-transaction
rejections and datastore errors have no status). -/
def statusOfFirmar : FirmarResult → Option Status
  | .notFound => some .notFound
  | .expired => some .expired
  | .alreadyUsed => some .alreadyUsed
  | .success _ _ _ => some .valid
  | _ => none

/-- One consume invocation of a serialized schedule: its clock reading
when it holds the row lock, its request body, client ip and the contract
id the insert would allocate. -/
structure FirmarCall where
  now : Nat
  contrato : Option String
  acepta : Option Bool
  ip : Option String
  cid : Nat
deriving Repr

/-- The invocation passes all checks that precede the transaction:
well-formed body, terms accepted, payload within the size bound. -/
def preOk (maxBytes : Nat) (c : FirmarCall) : Bool :=
  match firmarSchemaParse c.contrato c.acepta with
  | none => false
  | some (c64, a) => a && decide (approxBytes (stripDataUrlPfx c64) ≤ maxBytes)

/-- Serialized execution of concurrent consume calls on the same raw
token: the `FOR UPDATE` row lock serializes the transactions, so the
observable behaviour is that of running them one after the other, each
with the clock value it reads while holding the lock. -/
def runConsumes (hash : String → String) (maxBytes : Nat) (raw : String) :
    List FirmarCall → DBState → List FirmarResult × DBState
  | [], st => ([], st)
  | c :: cs, st =>
    let r := consumeAndSign hash maxBytes .noFail st c.now raw c.contrato
      c.acepta c.ip c.cid
    let rest := runConsumes hash maxBytes raw cs r.2
    (r.1 :: rest.1, rest.2)

/-- `CreateTokenSchema` validation of `ttl_minutes`:
`z.coerce.number().int().positive().max(60 * 24 * 14).optional()`.
Returns `none` on a validation failure, otherwise the parsed optional
value (in minutes). -/
def ttlParse (ttl_minutes : Option Int) : Option (Option Int) :=
  match ttl_minutes with
  | none => some none
  | some v => if 0 < v ∧ v ≤ 60 * 24 * 14 then some (some v) else none

/-- Outcome of `POST /contratos-firma-tokens`. -/
inductive IssueResult where
  | badPayload
  | rutJugadorMissing
  | rutApoderadoMissing
  | collision
  | serverError
  | created (token : String) (expires_at : Nat)
deriving Repr, DecidableEq

/-- True on the created outcome. -/
def isCreated : IssueResult → Bool
  | .created _ _ => true
  | _ => false

/-- The `POST /` handler. `jugadores` is the set of `rut_jugador` values
present in the `jugadores` table (both RUT existence checks query that
one table). `draws` is the stream of the random collaborator; the
handler calls `makeRawToken()` exactly once, so only the head is ever
consumed. A duplicate `token_hash` makes the insert fail with errno
1062, answered directly with the collision error — the handler contains
no retry loop. -/
def issueToken (hash : String → String) (jugadores : List Int) (st : DBState)
    (rut_jugador : Int) (rut_apoderado : Int) (email_destino : Option String)
    (ttl_minutes : Option Int) (createdAt : Nat) (draws : List String)
    (ip : Option String) (newId : Nat) : IssueResult × DBState :=
  if !(decide (0 < rut_jugador)) then (.badPayload, st)
  else if !(decide (0 < rut_apoderado)) then (.badPayload, st)
  else
    match ttlParse ttl_minutes with
    | none => (.badPayload, st)
    | some ttlOpt =>
      let ttl := ttlOpt.getD (60 * 24 * 3)
      if !(jugadores.contains rut_jugador) then (.rutJugadorMissing, st)
      else if !(jugadores.contains rut_apoderado) then (.rutApoderadoMissing, st)
      else
        let rawToken := draws.headD ""
        let token_hash := hash rawToken
        let created_at := truncSec createdAt
        let expires_at := truncSec (addMinutes createdAt ttl.toNat)
        if st.tokens.any (fun p => p.1 == token_hash) then (.collision, st)
        else
          (.created rawToken expires_at,
           { st with tokens := st.tokens ++
              [(token_hash,
                ⟨newId, rut_jugador, rut_apoderado, email_destino,
                 created_at, expires_at, none, ip, none⟩)] })

/-- Modelled from the spec: a URL-safe token character (unreserved
characters of RFC 3986). -/
def urlSafeChar (c : Char) : Bool :=
  c.isAlphanum || c = '-' || c = '_' || c = '.' || c = '~'

/-- Modelled from the spec: the raw-token format the spec requires —
length between 10 and 300 and URL-safe characters only. -/
def specTokenFormatOk (s : String) : Bool :=
  decide (10 ≤ s.length) && decide (s.length ≤ 300) &&
    s.toList.all urlSafeChar

/-- Number of trailing padding characters of a base64 string. -/
def b64PadCount (s : String) : Nat :=
  (s.toList.reverse.takeWhile (fun c => c = '=')).length

/-- Modelled from the spec: the decoded byte length of a canonical
(padded, length divisible by 4) base64 string. -/
def decodedBytesSpec (s : String) : Nat :=
  s.length / 4 * 3 - b64PadCount s

/-! ### Helper lemmas -/

/-- Truncation to seconds commutes with adding whole minutes. -/
theorem truncSec_addMinutes (t k : Nat) :
    truncSec (t + k * 60 * 1000) = truncSec t + k * 60 * 1000 := by
  unfold truncSec; omega

/-- The `used_at` update rewrites rows in place, so a keyed lookup finds
the same row, updated when its id matches. -/
theorem find?_markUsedL (l : List (String × TokenRow)) (tid now : Nat)
    (ip : Option String) (h : String) :
    (markUsedL l tid now ip).find? (fun p => p.1 == h) =
      ((l.find? (fun p => p.1 == h)).map (fun p =>
        if p.2.id = tid then
          (p.1, { p.2 with used_at := some now, ip_used := ip })
        else p)) := by
  induction l with
  | nil => rfl
  | cons a l ih =>
    by_cases hk : a.1 == h
    · by_cases hid : a.2.id = tid <;>
        simp [markUsedL, List.find?_cons, hk, hid]
    · by_cases hid : a.2.id = tid <;>
        simp only [markUsedL, List.map_cons, List.find?_cons, hk, hid,
          if_true, if_false, cond_false, ite_true, ite_false] <;>
        simpa [markUsedL] using ih

/-- Token lookup after `markUsed`. -/
theorem findToken_markUsed (st : DBState) (tid : Nat) (now : Nat)
    (ip : Option String) (h : String) :
    findToken (markUsed st tid now ip) h =
      (findToken st h).map (fun t =>
        if t.id = tid then { t with used_at := some now, ip_used := ip }
        else t) := by
  unfold findToken markUsed
  rw [find?_markUsedL]
  cases st.tokens.find? (fun p => p.1 == h) with
  | none => rfl
  | some p => by_cases hid : p.2.id = tid <;> simp [hid]

/-- Inserting a contract row does not touch the token table. -/
theorem findToken_insertContrato (st : DBState) (r : ContratoRow)
    (h : String) : findToken (insertContrato st r) h = findToken st h := rfl

/-- The consume transaction on a fresh, unexpired token: commits, returns
success, inserts the contract row and marks the token used. -/
theorem consume_success (hash : String → String) (maxBytes : Nat)
    (st : DBState) (now : Nat) (raw : String) (contrato : Option String)
    (acepta : Option Bool) (ip : Option String) (cid : Nat)
    (c64 : String) (t : TokenRow)
    (hraw : tokenParamOk raw = true)
    (hparse : firmarSchemaParse contrato acepta = some (c64, true))
    (hsize : approxBytes (stripDataUrlPfx c64) ≤ maxBytes)
    (hfind : findToken st (hash raw) = some t)
    (hfresh : t.used_at = none)
    (hnotexp : ¬ t.expires_at < now) :
    consumeAndSign hash maxBytes .noFail st now raw contrato acepta ip cid =
      (.success cid t.rut_jugador t.rut_apoderado,
        markUsed
          (insertContrato st
            ⟨cid, t.rut_jugador, t.rut_apoderado, now, stripDataUrlPfx c64⟩)
          t.id now ip) := by
  unfold consumeAndSign
  rw [hparse]
  simp [hraw, hfind, hfresh, hnotexp, Nat.not_lt.mpr hsize]

/-- The consume transaction on an already-used token: rolls back and
reports `expired` or `alreadyUsed` according to the clock (expiry is
checked first). -/
theorem consume_used (hash : String → String) (maxBytes : Nat)
    (fail : DBFail) (st : DBState) (now : Nat) (raw : String)
    (contrato : Option String) (acepta : Option Bool) (ip : Option String)
    (cid : Nat) (c64 : String) (t : TokenRow)
    (hraw : tokenParamOk raw = true)
    (hparse : firmarSchemaParse contrato acepta = some (c64, true))
    (hsize : approxBytes (stripDataUrlPfx c64) ≤ maxBytes)
    (hfind : findToken st (hash raw) = some t)
    (hused : t.used_at.isSome = true) :
    consumeAndSign hash maxBytes fail st now raw contrato acepta ip cid =
      ((if t.expires_at < now then .expired else .alreadyUsed), st) := by
  unfold consumeAndSign
  rw [hparse]
  by_cases hexp : t.expires_at < now <;>
    simp [hraw, hfind, hused, hexp, Nat.not_lt.mpr hsize]

/-- The consume transaction on a fresh but expired token: rolls back. -/
theorem consume_expired (hash : String → String) (maxBytes : Nat)
    (fail : DBFail) (st : DBState) (now : Nat) (raw : String)
    (contrato : Option String) (acepta : Option Bool) (ip : Option String)
    (cid : Nat) (c64 : String) (t : TokenRow)
    (hraw : tokenParamOk raw = true)
    (hparse : firmarSchemaParse contrato acepta = some (c64, true))
    (hsize : approxBytes (stripDataUrlPfx c64) ≤ maxBytes)
    (hfind : findToken st (hash raw) = some t)
    (hexp : t.expires_at < now) :
    consumeAndSign hash maxBytes fail st now raw contrato acepta ip cid =
      (.expired, st) := by
  unfold consumeAndSign
  rw [hparse]
  simp [hraw, hfind, hexp, Nat.not_lt.mpr hsize]

/-- Destructor for `preOk`. -/
theorem preOk_elim (maxBytes : Nat) (c : FirmarCall)
    (h : preOk maxBytes c = true) :
    ∃ c64, firmarSchemaParse c.contrato c.acepta = some (c64, true) ∧
      approxBytes (stripDataUrlPfx c64) ≤ maxBytes := by
  unfold preOk at h
  cases hp : firmarSchemaParse c.contrato c.acepta with
  | none => rw [hp] at h; cases h
  | some pr =>
    rw [hp] at h
    obtain ⟨c64, a⟩ := pr
    simp only [Bool.and_eq_true, decide_eq_true_eq] at h
    obtain ⟨ha, hs⟩ := h
    subst ha
    exact ⟨c64, rfl, hs⟩

set_option maxHeartbeats 1000000 in
/-- Every non-success outcome of the signing transaction leaves the
datastore exactly as it was (all abort paths roll back). -/
theorem consume_abort_rollback (hash : String → String) (maxBytes : Nat)
    (fail : DBFail) (st : DBState) (now : Nat) (raw : String)
    (contrato : Option String) (acepta : Option Bool) (ip : Option String)
    (cid : Nat) :
    (consumeAndSign hash maxBytes fail st now raw contrato acepta ip cid).2
        = st ∨
    ∃ a b c, (consumeAndSign hash maxBytes fail st now raw contrato
        acepta ip cid).1 = FirmarResult.success a b c := by
  simp only [consumeAndSign]
  repeat' split
  all_goals first
    | exact Or.inl rfl
    | exact Or.inr ⟨_, _, _, rfl⟩

/-! ### Concrete fixtures for witnesses and counterexamples -/

/-- Identity function standing in for the hash collaborator on concrete
inputs. -/
def idHash : String → String := fun s => s

/-- A raw token of the minimum accepted length. -/
def tkRaw : String := "tttttttttt"

/-- A fresh token row: unused, expiring at t = 100 ms. -/
def freshRow : TokenRow :=
  ⟨1, 12345678, 98765432, none, 0, 100, none, none, none⟩

/-- Datastore holding exactly the fresh token under hash `tkRaw`. -/
def freshState : DBState := ⟨[(tkRaw, freshRow)], []⟩

/-- The fresh row already consumed at t = 5. -/
def usedRow : TokenRow :=
  ⟨1, 12345678, 98765432, none, 0, 100, some 5, none, none⟩

/-- Datastore holding exactly the consumed token. -/
def usedState : DBState := ⟨[(tkRaw, usedRow)], []⟩

/-! ### Claims -/

/-- C3: if `ConsumeAndSign` aborts at any point after opening its
transaction — token not found, expired, already used, or any datastore
error injected at the contract insert, the `used_at` update or the
commit — the whole transaction is rolled back: the externally visible
datastore equals the initial one, so no `SignedContract` row is
inserted, the token row (and its `used_at`) is unchanged, and no partial
state is observable. -/
theorem C3_abort_rolls_back_everything (hash : String → String)
    (maxBytes : Nat) (fail : DBFail) (st : DBState) (now : Nat)
    (raw : String) (contrato : Option String) (acepta : Option Bool)
    (ip : Option String) (cid : Nat)
    (h : isSuccess (consumeAndSign hash maxBytes fail st now raw contrato
      acepta ip cid).1 = false) :
    (consumeAndSign hash maxBytes fail st now raw contrato acepta ip cid).2
      = st := by
  rcases consume_abort_rollback hash maxBytes fail st now raw contrato
    acepta ip cid with hok | ⟨a, b, c, hs⟩
  · exact hok
  · rw [hs] at h
    simp [isSuccess] at h

/-- Witness for C3: a datastore error injected at the `used_at` update of
an otherwise valid consumption yields an error outcome and leaves the
concrete datastore untouched. -/
theorem C3_witness :
    isSuccess (consumeAndSign idHash 100 .atUpdate freshState 50 tkRaw
      (some "AAAAAAAAAAAA") none none 7).1 = false ∧
    (consumeAndSign idHash 100 .atUpdate freshState 50 tkRaw
      (some "AAAAAAAAAAAA") none none 7).2 = freshState :=
  ⟨by decide, C3_abort_rolls_back_everything idHash 100 .atUpdate freshState
    50 tkRaw (some "AAAAAAAAAAAA") none none 7 (by decide)⟩

/-- C9 counterexample: the ten-character token of exclamation marks is
outside the URL-safe charset, yet both endpoints let it past input
validation and perform the datastore lookup — validation returns the
metadata of the row stored under its hash, and consumption signs with
it. The claim that a charset-malformed token is rejected before any
lookup is false. -/
theorem C9_counterexample :
    specTokenFormatOk "!!!!!!!!!!" = false ∧
    tokenParamOk "!!!!!!!!!!" = true ∧
    validateToken idHash ⟨[("!!!!!!!!!!", freshRow)], []⟩ 50 "!!!!!!!!!!"
      = .valid 12345678 98765432 none 100 ∧
    (consumeAndSign idHash 100 .noFail ⟨[("!!!!!!!!!!", freshRow)], []⟩ 50
      "!!!!!!!!!!" (some "AAAAAAAAAAAA") none none 7).1
      = .success 7 12345678 98765432 :=
  ⟨by decide, by decide, by decide, by decide⟩

/-- C9 (amended): for both `ValidateToken` and `ConsumeAndSign`, a
presented raw token shorter than 10 characters or longer than 300
characters is rejected with an input-validation error before any
datastore lookup: the answer is the same for every datastore state and
the state is untouched. Only the length is checked; the charset is not
(see the counterexample). -/
theorem C9_malformed_length_rejected (hash : String → String)
    (st : DBState) (now : Nat) (maxBytes : Nat) (fail : DBFail)
    (raw : String) (contrato : Option String) (acepta : Option Bool)
    (ip : Option String) (cid : Nat)
    (hbad : raw.length < 10 ∨ 300 < raw.length) :
    validateToken hash st now raw = .invalidToken ∧
    consumeAndSign hash maxBytes fail st now raw contrato acepta ip cid
      = (.badToken, st) := by
  have hfalse : tokenParamOk raw = false := by
    unfold tokenParamOk
    rcases hbad with hb | hb
    · have hn : ¬ (10 ≤ raw.length) := by omega
      simp [hn]
    · have hn : ¬ (raw.length ≤ 300) := by omega
      simp [hn]
  constructor
  · unfold validateToken
    rw [hfalse]
    simp
  · unfold consumeAndSign
    rw [hfalse]
    simp

/-- Witness for C9 (amended): a five-character token is rejected by both
endpoints without touching a datastore that does hold a row under its
hash. -/
theorem C9_witness :
    ("short".length < 10 ∨ 300 < "short".length) ∧
    validateToken idHash ⟨[("short", freshRow)], []⟩ 50 "short"
      = .invalidToken ∧
    consumeAndSign idHash 100 .noFail ⟨[("short", freshRow)], []⟩ 50 "short"
      (some "AAAAAAAAAAAA") none none 7
      = (.badToken, ⟨[("short", freshRow)], []⟩) :=
  ⟨by decide,
   (C9_malformed_length_rejected idHash ⟨[("short", freshRow)], []⟩ 50 100
     .noFail "short" (some "AAAAAAAAAAAA") none none 7 (by decide)).1,
   (C9_malformed_length_rejected idHash ⟨[("short", freshRow)], []⟩ 50 100
     .noFail "short" (some "AAAAAAAAAAAA") none none 7 (by decide)).2⟩

/-- C5 counterexample: a consume request whose body omits
`acepta_terminos` is not rejected — the zod schema defaults the flag to
`true`, the request proceeds into the transaction and even consumes the
token. The claim that the omitted flag yields a 400 validation error
with the token left unconsumed is false on the code. -/
theorem C5_counterexample :
    firmarSchemaParse (some "AAAAAAAAAAAA") none
      = some ("AAAAAAAAAAAA", true) ∧
    (consumeAndSign idHash 100 .noFail freshState 50 tkRaw
      (some "AAAAAAAAAAAA") none none 7).1 = .success 7 12345678 98765432 ∧
    findToken (consumeAndSign idHash 100 .noFail freshState 50 tkRaw
      (some "AAAAAAAAAAAA") none none 7).2 tkRaw
      = some { freshRow with used_at := some 50 } :=
  ⟨rfl, by decide, by decide⟩

/-- C5 (amended): a consume request that explicitly sets
`acepta_terminos` to `false` is rejected with the 400 terms error before
any datastore interaction — for every datastore state and failure
injection, and with the state unchanged; a body omitting the flag parses
with the flag defaulted to `true`, so such a request is never rejected
for missing consent. -/
theorem C5_terms_flag (hash : String → String) (maxBytes : Nat)
    (fail : DBFail) (st : DBState) (now : Nat) (raw : String)
    (c64 : String) (ip : Option String) (cid : Nat)
    (hraw : tokenParamOk raw = true)
    (hlen : 10 ≤ c64.length) :
    consumeAndSign hash maxBytes fail st now raw (some c64) (some false)
      ip cid = (.termsRejected, st) ∧
    firmarSchemaParse (some c64) none = some (c64, true) := by
  constructor
  · unfold consumeAndSign firmarSchemaParse
    simp [hraw, Nat.not_lt.mpr hlen]
  · unfold firmarSchemaParse
    simp [Nat.not_lt.mpr hlen]

/-- Witness for C5 (amended): the explicit refusal is bounced with the
terms error and the concrete datastore is untouched. -/
theorem C5_witness :
    tokenParamOk tkRaw = true ∧
    consumeAndSign idHash 100 .noFail freshState 50 tkRaw
      (some "AAAAAAAAAAAA") (some false) none 7
      = (.termsRejected, freshState) :=
  ⟨by decide, (C5_terms_flag idHash 100 .noFail freshState 50 tkRaw
    "AAAAAAAAAAAA" none 7 (by decide) (by decide)).1⟩

/-- Dropping through the first comma of `l1 ++ ',' :: l2` yields `l2`
when `l1` holds no comma. -/
theorem dropThruComma_append (l1 l2 : List Char) (h : ',' ∉ l1) :
    dropThruComma (l1 ++ ',' :: l2) = l2 := by
  induction l1 with
  | nil => simp [dropThruComma]
  | cons a l ih =>
    have ha : ¬ a = ',' := fun he => h (he ▸ List.mem_cons_self a l)
    have hstep : dropThruComma (a :: l ++ ',' :: l2)
        = dropThruComma (l ++ ',' :: l2) := by
      simp only [List.cons_append, dropThruComma, if_neg ha]
      rfl
    rw [hstep, ih (fun hm => h (List.mem_cons_of_mem a hm))]

/-- C8 counterexample: with the configured maximum at 8 bytes, the
payload `AAAAAAAAAA==` decodes to 7 bytes — within the limit — yet the
handler rejects it with the 413 payload-too-large error, because the
size accounting is `floor(3 * encodedLength / 4)`, which counts the two
padding characters as data (9 > 8). The claim that the payload is
measured by its decoded byte length is false on the code. -/
theorem C8_counterexample :
    decodedBytesSpec (stripDataUrlPfx "AAAAAAAAAA==") = 7 ∧
    (7 : Nat) ≤ 8 ∧
    approxBytes (stripDataUrlPfx "AAAAAAAAAA==") = 9 ∧
    consumeAndSign idHash 8 .noFail freshState 50 tkRaw
      (some "AAAAAAAAAA==") none none 7 = (.tooLarge, freshState) :=
  ⟨by decide, by decide, by decide, by decide⟩

/-- C8 (amended): `ConsumeAndSign` strips an optional `data:...,` prefix
(everything up to the first comma of a string starting with `data:`)
before size accounting, measures the stripped payload by
`floor(3 * encodedLength / 4)` — which equals the decoded byte length
for unpadded base64 but counts padding characters as data — and rejects
every payload whose measured size exceeds the configured maximum with
the distinct 413 error before the transaction opens, leaving the
datastore (and hence the token) unchanged. -/
theorem C8_size_accounting (hash : String → String) (maxBytes : Nat)
    (fail : DBFail) (st : DBState) (now : Nat) (raw : String)
    (contrato : Option String) (acepta : Option Bool) (ip : Option String)
    (cid : Nat) (c64 : String)
    (hraw : tokenParamOk raw = true)
    (hparse : firmarSchemaParse contrato acepta = some (c64, true))
    (hbig : maxBytes < approxBytes (stripDataUrlPfx c64)) :
    consumeAndSign hash maxBytes fail st now raw contrato acepta ip cid
      = (.tooLarge, st) ∧
    (∀ s : String, b64PadCount s = 0 → s.length % 4 = 0 →
      approxBytes s = decodedBytesSpec s) ∧
    (∀ (s : String) (l1 l2 : List Char),
      "data:".toList.isPrefixOf s.toList = true →
      s.toList = l1 ++ ',' :: l2 → ',' ∉ l1 →
      stripDataUrlPfx s = String.mk l2) := by
  refine ⟨?_, ?_, ?_⟩
  · unfold consumeAndSign
    rw [hparse]
    simp [hraw, hbig]
  · intro s hpad hmod
    unfold approxBytes decodedBytesSpec
    rw [hpad]
    omega
  · intro s l1 l2 h1 h2 h3
    unfold stripDataUrlPfx
    rw [h2] at h1 ⊢
    rw [dropThruComma_append l1 l2 h3]
    have hc : (l1 ++ ',' :: l2).contains ',' = true := by simp
    rw [h1, hc]
    rfl

/-- Witness for C8 (amended): a 16-character payload measured at 12
bytes is rejected by the 413 path when the configured maximum is 11, the
concrete datastore is untouched, unpadded base64 of length 16 measures
exactly its decoded 12 bytes, and a `data:` prefix is stripped. -/
theorem C8_witness :
    (11 : Nat) < approxBytes (stripDataUrlPfx "AAAAAAAAAAAAAAAA") ∧
    consumeAndSign idHash 11 .noFail freshState 50 tkRaw
      (some "AAAAAAAAAAAAAAAA") none none 7 = (.tooLarge, freshState) ∧
    approxBytes "AAAAAAAAAAAAAAAA" = decodedBytesSpec "AAAAAAAAAAAAAAAA" ∧
    stripDataUrlPfx "data:application/pdf;base64,QUJD" = String.mk ['Q', 'U', 'J', 'D'] := by
  have h := C8_size_accounting idHash 11 .noFail freshState 50 tkRaw
    (some "AAAAAAAAAAAAAAAA") none none 7 "AAAAAAAAAAAAAAAA"
    (by decide) (by decide) (by decide)
  refine ⟨by decide, h.1, h.2.1 "AAAAAAAAAAAAAAAA" (by decide) (by decide), ?_⟩
  exact h.2.2 "data:application/pdf;base64,QUJD"
    ("data:application/pdf;base64".toList) (['Q', 'U', 'J', 'D'])
    (by decide) (by decide) (by decide)

/-- C4 counterexample: the code checks expiry before use and uses a
strict comparison. On a token both used (at t = 5) and past expiry
(expiry 100, now 200) validation answers `EXPIRED` where the claim
demands `ALREADY_USED`; and an unused token presented exactly at its
expiry instant (now = 100 = expiresAt) is answered `VALID` where the
claim demands `EXPIRED`. The spec-ordered status function disagrees with
the code at both inputs. -/
theorem C4_counterexample :
    validateToken idHash usedState 200 tkRaw = .expired ∧
    deriveStatusSpec 200 (findToken usedState (idHash tkRaw))
      = .alreadyUsed ∧
    ValidateResult.expired ≠ ValidateResult.alreadyUsed ∧
    validateToken idHash freshState 100 tkRaw
      = .valid 12345678 98765432 none 100 ∧
    deriveStatusSpec 100 (findToken freshState (idHash tkRaw)) = .expired :=
  ⟨by decide, by decide, by decide, by decide, by decide⟩

/-- C4 (amended): both `ValidateToken` and the re-validation step inside
`ConsumeAndSign` derive the token status as the same function
`deriveStatus` of `(now, expiresAt, usedAt)`, checked in this order: row
not found → `NOT_FOUND`; else `expiresAt < now` (strict) → `EXPIRED`;
else `usedAt` set → `ALREADY_USED`; otherwise `VALID`. Consequently a
token both used and past expiry is reported `EXPIRED`, and an unused
token presented exactly at its expiry instant is reported `VALID`. -/
theorem C4_status_derivation (hash : String → String) (st : DBState)
    (now : Nat) (raw : String) (maxBytes : Nat) (contrato : Option String)
    (acepta : Option Bool) (ip : Option String) (cid : Nat) (c64 : String)
    (hraw : tokenParamOk raw = true)
    (hparse : firmarSchemaParse contrato acepta = some (c64, true))
    (hsize : approxBytes (stripDataUrlPfx c64) ≤ maxBytes) :
    statusOfValidate (validateToken hash st now raw)
      = some (deriveStatus now (findToken st (hash raw))) ∧
    statusOfFirmar (consumeAndSign hash maxBytes .noFail st now raw
        contrato acepta ip cid).1
      = some (deriveStatus now (findToken st (hash raw))) ∧
    (∀ t : TokenRow, t.used_at.isSome = true → t.expires_at < now →
      deriveStatus now (some t) = .expired) ∧
    (∀ t : TokenRow, t.used_at = none →
      deriveStatus t.expires_at (some t) = .valid) := by
  refine ⟨?_, ?_, ?_, ?_⟩
  · cases hf : findToken st (hash raw) with
    | none =>
      unfold validateToken deriveStatus
      simp [hraw, hf, statusOfValidate]
    | some t =>
      unfold validateToken deriveStatus
      by_cases hexp : t.expires_at < now <;>
        by_cases hused : t.used_at.isSome <;>
          simp [hraw, hf, hexp, hused, statusOfValidate]
  · cases hf : findToken st (hash raw) with
    | none =>
      unfold consumeAndSign deriveStatus
      rw [hparse]
      simp [hraw, hf, Nat.not_lt.mpr hsize, statusOfFirmar]
    | some t =>
      by_cases hexp : t.expires_at < now
      · rw [consume_expired hash maxBytes .noFail st now raw contrato
          acepta ip cid c64 t hraw hparse hsize hf hexp]
        simp [statusOfFirmar, deriveStatus, hexp]
      · cases hu : t.used_at with
        | some u =>
          rw [consume_used hash maxBytes .noFail st now raw contrato
            acepta ip cid c64 t hraw hparse hsize hf (by simp [hu])]
          simp [statusOfFirmar, deriveStatus, hexp, hu]
        | none =>
          rw [consume_success hash maxBytes st now raw contrato acepta ip
            cid c64 t hraw hparse hsize hf hu hexp]
          simp [statusOfFirmar, deriveStatus, hexp, hu]
  · intro t h1 h2
    unfold deriveStatus
    simp [h2]
  · intro t h1
    unfold deriveStatus
    simp [h1]

/-- Witness for C4 (amended): the agreement between handlers and
`deriveStatus` evaluated on the concrete fresh datastore at t = 50. -/
theorem C4_witness :
    statusOfValidate (validateToken idHash freshState 50 tkRaw)
      = some (deriveStatus 50 (findToken freshState (idHash tkRaw))) ∧
    statusOfFirmar (consumeAndSign idHash 100 .noFail freshState 50 tkRaw
        (some "AAAAAAAAAAAA") none none 7).1
      = some (deriveStatus 50 (findToken freshState (idHash tkRaw))) :=
  ⟨(C4_status_derivation idHash freshState 50 tkRaw 100
      (some "AAAAAAAAAAAA") none none 7 "AAAAAAAAAAAA"
      (by decide) (by decide) (by decide)).1,
   (C4_status_derivation idHash freshState 50 tkRaw 100
      (some "AAAAAAAAAAAA") none none 7 "AAAAAAAAAAAA"
      (by decide) (by decide) (by decide)).2.1⟩

/-- The issuance success path: both RUTs found and no hash collision
insert a fresh row whose timestamps are the truncated creation instant
and the creation instant shifted by the effective ttl. -/
theorem issue_created (hash : String → String) (jugadores : List Int)
    (st : DBState) (rj ra : Int) (email : Option String)
    (ttlm : Option Int) (ttlOpt : Option Int) (createdAt : Nat)
    (draws : List String) (ip : Option String) (newId : Nat)
    (hrj : 0 < rj) (hra : 0 < ra)
    (httl : ttlParse ttlm = some ttlOpt)
    (hj : jugadores.contains rj = true)
    (ha : jugadores.contains ra = true)
    (hnc : st.tokens.any (fun p => p.1 == hash (draws.headD "")) = false) :
    issueToken hash jugadores st rj ra email ttlm createdAt draws ip newId
      = (.created (draws.headD "")
          (truncSec createdAt + (ttlOpt.getD (60 * 24 * 3)).toNat * 60 * 1000),
         { st with tokens := st.tokens ++
            [(hash (draws.headD ""),
              ⟨newId, rj, ra, email, truncSec createdAt,
               truncSec createdAt
                 + (ttlOpt.getD (60 * 24 * 3)).toNat * 60 * 1000,
               none, ip, none⟩)] }) := by
  have hj2 : rj ∈ jugadores := by simpa using hj
  have ha2 : ra ∈ jugadores := by simpa using ha
  have hnc0 : ∀ (a : String) (b : TokenRow),
      (a, b) ∈ st.tokens → ¬ a = hash (draws.head?.getD "") := by
    simpa using hnc
  have hnc2 : ∀ x : TokenRow, (hash (draws.head?.getD ""), x) ∉ st.tokens :=
    fun x hx => hnc0 _ x hx rfl
  unfold issueToken
  rw [httl]
  have he : truncSec (addMinutes createdAt (ttlOpt.getD 4320).toNat)
      = truncSec createdAt + (ttlOpt.getD 4320).toNat * 60 * 1000 := by
    unfold addMinutes
    exact truncSec_addMinutes createdAt _
  simp [hrj, hra, hj2, ha2, hnc2, he]

/-- C7: on every successful issuance the stored and returned expiry
equals the stored creation timestamp plus the effective ttl (in
minutes); the effective ttl is the requested one, defaulting to 72 hours
(4320 minutes) when `ttl_minutes` is omitted; and any requested ttl
above 14 days (20160 minutes) is rejected as invalid input before
issuance, with no row inserted. -/
theorem C7_expiry_equals_created_plus_ttl (hash : String → String)
    (jugadores : List Int) (st : DBState) (rj ra : Int)
    (email : Option String) (ttlm : Option Int) (ttlOpt : Option Int)
    (createdAt : Nat) (draws : List String) (ip : Option String)
    (newId : Nat)
    (hrj : 0 < rj) (hra : 0 < ra)
    (httl : ttlParse ttlm = some ttlOpt)
    (hj : jugadores.contains rj = true)
    (ha : jugadores.contains ra = true)
    (hnc : st.tokens.any (fun p => p.1 == hash (draws.headD "")) = false) :
    (∃ row : TokenRow,
      issueToken hash jugadores st rj ra email ttlm createdAt draws ip newId
        = (.created (draws.headD "") row.expires_at,
           { st with tokens := st.tokens ++ [(hash (draws.headD ""), row)] })
      ∧ row.created_at = truncSec createdAt
      ∧ row.expires_at = row.created_at
          + (ttlOpt.getD (60 * 24 * 3)).toNat * 60 * 1000
      ∧ row.used_at = none) ∧
    (ttlm = none → ttlOpt.getD (60 * 24 * 3) = 60 * 24 * 3) ∧
    (∀ v : Int, 60 * 24 * 14 < v →
      issueToken hash jugadores st rj ra email (some v) createdAt draws ip
        newId = (.badPayload, st)) := by
  refine ⟨?_, ?_, ?_⟩
  · exact ⟨⟨newId, rj, ra, email, truncSec createdAt,
      truncSec createdAt + (ttlOpt.getD (60 * 24 * 3)).toNat * 60 * 1000,
      none, ip, none⟩,
      issue_created hash jugadores st rj ra email ttlm ttlOpt createdAt
        draws ip newId hrj hra httl hj ha hnc, rfl, rfl, rfl⟩
  · intro hnone
    subst hnone
    unfold ttlParse at httl
    cases httl
    rfl
  · intro v hv
    have hp : ttlParse (some v) = none := by
      show (if 0 < v ∧ v ≤ 60 * 24 * 14 then some (some v) else none)
        = (none : Option (Option Int))
      rw [if_neg]
      intro hand
      obtain ⟨hand1, hand2⟩ := hand
      omega
    unfold issueToken
    rw [hp]
    simp [hrj, hra]

/-- Witness for C7: issuing with ttl 10 minutes at t = 1234 ms stores
expiry 601000 ms after the truncated creation second, the omitted-ttl
default is 4320 minutes, and a 20161-minute request is rejected. -/
theorem C7_witness :
    (∃ row : TokenRow,
      issueToken idHash [12345678, 98765432] ⟨[], []⟩ 12345678 98765432
          none (some 10) 1234 ["rawrawrawraw"] none 1
        = (.created "rawrawrawraw" row.expires_at,
           ⟨[("rawrawrawraw", row)], []⟩)
      ∧ row.created_at = truncSec 1234
      ∧ row.expires_at = row.created_at + 10 * 60 * 1000
      ∧ row.used_at = none) ∧
    issueToken idHash [12345678, 98765432] ⟨[], []⟩ 12345678 98765432
      none (some 20161) 1234 ["rawrawrawraw"] none 1
      = (.badPayload, ⟨[], []⟩) := by
  have h := C7_expiry_equals_created_plus_ttl idHash [12345678, 98765432]
    ⟨[], []⟩ 12345678 98765432 none (some 10) (some 10) 1234
    ["rawrawrawraw"] none 1 (by decide) (by decide) (by decide) (by decide)
    (by decide) (by decide)
  exact ⟨h.1, h.2.2 20161 (by decide)⟩

/-- C10: issuance checks the guardian RUT against the same `jugadores`
table used for the subject RUT — a guardian RUT absent from that table
is rejected with the referenced-entity error naming `rut_apoderado` and
no token row is inserted; conversely a created outcome implies both RUTs
are present in that one table. -/
theorem C10_guardian_rut_same_table (hash : String → String)
    (jugadores : List Int) (st : DBState) (rj ra : Int)
    (email : Option String) (ttlm : Option Int) (ttlOpt : Option Int)
    (createdAt : Nat) (draws : List String) (ip : Option String)
    (newId : Nat)
    (hrj : 0 < rj) (hra : 0 < ra)
    (httl : ttlParse ttlm = some ttlOpt)
    (hj : jugadores.contains rj = true)
    (hna : jugadores.contains ra = false) :
    issueToken hash jugadores st rj ra email ttlm createdAt draws ip newId
      = (.rutApoderadoMissing, st) ∧
    (∀ jug2 : List Int,
      isCreated (issueToken hash jug2 st rj ra email ttlm createdAt draws
        ip newId).1 = true →
      jug2.contains rj = true ∧ jug2.contains ra = true) := by
  constructor
  · have hj2 : rj ∈ jugadores := by simpa using hj
    have hna2 : ra ∉ jugadores := by simpa using hna
    unfold issueToken
    rw [httl]
    simp [hrj, hra, hj2, hna2]
  · intro jug2 hc
    unfold issueToken at hc
    rw [httl] at hc
    by_cases h1 : rj ∈ jug2
    · by_cases h2 : ra ∈ jug2
      · exact ⟨by simpa using h1, by simpa using h2⟩
      · simp [hrj, hra, h1, h2, isCreated] at hc
    · simp [hrj, hra, h1, isCreated] at hc

/-- Witness for C10: a guardian RUT missing from the players table is
bounced with the `rut_apoderado` conflict, no row inserted, on concrete
data. -/
theorem C10_witness :
    issueToken idHash [12345678] ⟨[], []⟩ 12345678 98765432 none none 1234
      ["rawrawrawraw"] none 1 = (.rutApoderadoMissing, ⟨[], []⟩) :=
  (C10_guardian_rut_same_table idHash [12345678] ⟨[], []⟩ 12345678 98765432
    none none none 1234 ["rawrawrawraw"] none 1 (by decide) (by decide) rfl
    (by decide) (by decide)).1

/-- C6 counterexample: the datastore already holds a row under the hash
of the first random draw, and a second fresh draw is available, yet
issuance surfaces the 409 collision error at once — the handler contains
no internal retry, so the claim that it retries with fresh draws and
surfaces an error only after retries are exhausted is false. -/
theorem C6_counterexample :
    (issueToken idHash [12345678, 98765432] freshState 12345678 98765432
      none none 1234 [tkRaw, "uuuuuuuuuu"] none 2).1 = .collision ∧
    freshState.tokens.any (fun p => p.1 == idHash "uuuuuuuuuu") = false :=
  ⟨by decide, by decide⟩

/-- C6 (amended): when the token insert at issuance fails with the
duplicate-hash (errno 1062) error, `IssueToken` immediately returns the
409 collision error to the caller — inviting the caller to retry — with
the datastore unchanged and no internal retry from the remaining random
stream. -/
theorem C6_collision_surfaces_immediately (hash : String → String)
    (jugadores : List Int) (st : DBState) (rj ra : Int)
    (email : Option String) (ttlm : Option Int) (ttlOpt : Option Int)
    (createdAt : Nat) (draws : List String) (ip : Option String)
    (newId : Nat)
    (hrj : 0 < rj) (hra : 0 < ra)
    (httl : ttlParse ttlm = some ttlOpt)
    (hj : jugadores.contains rj = true)
    (ha : jugadores.contains ra = true)
    (hcol : st.tokens.any (fun p => p.1 == hash (draws.headD "")) = true) :
    issueToken hash jugadores st rj ra email ttlm createdAt draws ip newId
      = (.collision, st) := by
  have hj2 : rj ∈ jugadores := by simpa using hj
  have ha2 : ra ∈ jugadores := by simpa using ha
  have hcol2 : ∃ x : TokenRow, (hash (draws.head?.getD ""), x) ∈ st.tokens := by
    simpa using hcol
  unfold issueToken
  rw [httl]
  simp [hrj, hra, hj2, ha2, hcol2]

/-- Witness for C6 (amended): the concrete collision of the previous
counterexample state returns the collision error with the datastore
unchanged. -/
theorem C6_witness :
    issueToken idHash [12345678, 98765432] freshState 12345678 98765432
      none none 1234 [tkRaw, "uuuuuuuuuu"] none 2
      = (.collision, freshState) :=
  C6_collision_surfaces_immediately idHash [12345678, 98765432] freshState
    12345678 98765432 none none none 1234 [tkRaw, "uuuuuuuuuu"] none 2
    (by decide) (by decide) rfl (by decide) (by decide) (by decide)

/-- After a successful consumption, looking the token up again returns
the winner row with `used_at` set. -/
theorem findToken_after_success (st : DBState) (t : TokenRow) (h : String)
    (now : Nat) (ip : Option String) (cid : Nat) (pureB64 : String)
    (hfind : findToken st h = some t) :
    findToken (markUsed (insertContrato st
        ⟨cid, t.rut_jugador, t.rut_apoderado, now, pureB64⟩) t.id now ip) h
      = some { t with used_at := some now, ip_used := ip } := by
  rw [findToken_markUsed, findToken_insertContrato, hfind]
  simp

/-- One unfolding step of the serialized schedule. -/
theorem runConsumes_cons (hash : String → String) (maxBytes : Nat)
    (raw : String) (c : FirmarCall) (cs : List FirmarCall) (st : DBState) :
    runConsumes hash maxBytes raw (c :: cs) st =
      ((consumeAndSign hash maxBytes .noFail st c.now raw c.contrato
          c.acepta c.ip c.cid).1
        :: (runConsumes hash maxBytes raw cs
            (consumeAndSign hash maxBytes .noFail st c.now raw c.contrato
              c.acepta c.ip c.cid).2).1,
       (runConsumes hash maxBytes raw cs
         (consumeAndSign hash maxBytes .noFail st c.now raw c.contrato
           c.acepta c.ip c.cid).2).2) := rfl

/-- On a datastore whose token is already consumed, a serialized batch of
well-formed consume calls reports only `expired` or `alreadyUsed` and
leaves the datastore unchanged. -/
theorem runConsumes_used (hash : String → String) (maxBytes : Nat)
    (raw : String) (st : DBState) (t : TokenRow)
    (hraw : tokenParamOk raw = true)
    (hfind : findToken st (hash raw) = some t)
    (hused : t.used_at.isSome = true) :
    ∀ calls : List FirmarCall,
      (∀ c ∈ calls, preOk maxBytes c = true) →
      (∀ r ∈ (runConsumes hash maxBytes raw calls st).1,
        r = FirmarResult.expired ∨ r = FirmarResult.alreadyUsed) ∧
      (runConsumes hash maxBytes raw calls st).2 = st := by
  intro calls
  induction calls with
  | nil =>
    intro _
    exact ⟨fun r hr => absurd hr (List.not_mem_nil r), rfl⟩
  | cons c cs ih =>
    intro hpre
    obtain ⟨c64, hp, hs⟩ :=
      preOk_elim maxBytes c (hpre c (List.mem_cons_self c cs))
    have hc := consume_used hash maxBytes DBFail.noFail st c.now raw
      c.contrato c.acepta c.ip c.cid c64 t hraw hp hs hfind hused
    obtain ⟨ihr, ihs⟩ := ih (fun x hx => hpre x (List.mem_cons_of_mem c hx))
    rw [runConsumes_cons, hc]
    constructor
    · intro r hr
      rcases List.mem_cons.mp hr with h | h
      · subst h
        by_cases hx : t.expires_at < c.now <;> simp [hx]
      · exact ihr r h
    · exact ihs


/-- C2 counterexample: on a token expiring at t = 100, a first
consumption at t = 50 succeeds; a second consumption at t = 200 (after
the first committed) is answered `EXPIRED`, not `ALREADY_USED`, because
the re-validation checks expiry before use. The claim that the second
call always observes `ALREADY_USED` is false; the single-contract part
survives (exactly one contract row exists). -/
theorem C2_counterexample :
    (consumeAndSign idHash 100 .noFail freshState 50 tkRaw
      (some "AAAAAAAAAAAA") none none 7).1 = .success 7 12345678 98765432 ∧
    (consumeAndSign idHash 100 .noFail
      (consumeAndSign idHash 100 .noFail freshState 50 tkRaw
        (some "AAAAAAAAAAAA") none none 7).2 200 tkRaw
      (some "AAAAAAAAAAAA") none none 8).1 = .expired ∧
    FirmarResult.expired ≠ FirmarResult.alreadyUsed ∧
    (consumeAndSign idHash 100 .noFail
      (consumeAndSign idHash 100 .noFail freshState 50 tkRaw
        (some "AAAAAAAAAAAA") none none 7).2 200 tkRaw
      (some "AAAAAAAAAAAA") none none 8).2.contratos.length = 1 :=
  ⟨by decide, by decide, by decide, by decide⟩

/-- C2 (amended): for every token, a successful consumption followed by
a second consumption after the first commits yields success and then
`ALREADY_USED` when the second call arrives before expiry (`EXPIRED`
when it arrives after expiry — expiry is checked first); exactly one
`SignedContract` row is created, and once `used_at` is non-null no later
well-formed call — whatever its clock, payload or failure injection —
can ever succeed or change the datastore again. -/
theorem C2_second_consume_blocked (hash : String → String) (maxBytes : Nat)
    (st : DBState) (raw : String) (t : TokenRow)
    (now1 now2 : Nat) (contrato1 contrato2 : Option String)
    (acepta1 acepta2 : Option Bool) (ip1 ip2 : Option String)
    (cid1 cid2 : Nat) (c64a c64b : String)
    (hraw : tokenParamOk raw = true)
    (hfind : findToken st (hash raw) = some t)
    (hfresh : t.used_at = none)
    (hnot1 : ¬ t.expires_at < now1)
    (hparse1 : firmarSchemaParse contrato1 acepta1 = some (c64a, true))
    (hsize1 : approxBytes (stripDataUrlPfx c64a) ≤ maxBytes)
    (hparse2 : firmarSchemaParse contrato2 acepta2 = some (c64b, true))
    (hsize2 : approxBytes (stripDataUrlPfx c64b) ≤ maxBytes) :
    (consumeAndSign hash maxBytes .noFail st now1 raw contrato1 acepta1
        ip1 cid1).1 = .success cid1 t.rut_jugador t.rut_apoderado ∧
    (consumeAndSign hash maxBytes .noFail
        (consumeAndSign hash maxBytes .noFail st now1 raw contrato1 acepta1
          ip1 cid1).2 now2 raw contrato2 acepta2 ip2 cid2).1
      = (if t.expires_at < now2 then .expired else .alreadyUsed) ∧
    (consumeAndSign hash maxBytes .noFail
        (consumeAndSign hash maxBytes .noFail st now1 raw contrato1 acepta1
          ip1 cid1).2 now2 raw contrato2 acepta2 ip2 cid2).2
      = (consumeAndSign hash maxBytes .noFail st now1 raw contrato1 acepta1
          ip1 cid1).2 ∧
    (consumeAndSign hash maxBytes .noFail st now1 raw contrato1 acepta1
        ip1 cid1).2.contratos.length = st.contratos.length + 1 ∧
    (∀ (fl : DBFail) (now3 : Nat) (contrato3 : Option String)
        (acepta3 : Option Bool) (ip3 : Option String) (cid3 : Nat)
        (c64c : String),
      firmarSchemaParse contrato3 acepta3 = some (c64c, true) →
      approxBytes (stripDataUrlPfx c64c) ≤ maxBytes →
      isSuccess (consumeAndSign hash maxBytes fl
        (consumeAndSign hash maxBytes .noFail st now1 raw contrato1 acepta1
          ip1 cid1).2 now3 raw contrato3 acepta3 ip3 cid3).1 = false ∧
      (consumeAndSign hash maxBytes fl
        (consumeAndSign hash maxBytes .noFail st now1 raw contrato1 acepta1
          ip1 cid1).2 now3 raw contrato3 acepta3 ip3 cid3).2
        = (consumeAndSign hash maxBytes .noFail st now1 raw contrato1
            acepta1 ip1 cid1).2) := by
  have h1 := consume_success hash maxBytes st now1 raw contrato1 acepta1
    ip1 cid1 c64a t hraw hparse1 hsize1 hfind hfresh hnot1
  have hf2 : findToken (consumeAndSign hash maxBytes .noFail st now1 raw
      contrato1 acepta1 ip1 cid1).2 (hash raw)
      = some { t with used_at := some now1, ip_used := ip1 } := by
    rw [h1]
    exact findToken_after_success st t (hash raw) now1 ip1 cid1
      (stripDataUrlPfx c64a) hfind
  refine ⟨by rw [h1], ?_, ?_, ?_, ?_⟩
  · have h2 := consume_used hash maxBytes DBFail.noFail _ now2 raw contrato2
      acepta2 ip2 cid2 c64b _ hraw hparse2 hsize2 hf2 (by simp)
    rw [h2]
  · have h2 := consume_used hash maxBytes DBFail.noFail _ now2 raw contrato2
      acepta2 ip2 cid2 c64b _ hraw hparse2 hsize2 hf2 (by simp)
    rw [h2]
  · rw [h1]
    simp [markUsed, insertContrato]
  · intro fl now3 contrato3 acepta3 ip3 cid3 c64c hp3 hs3
    have h3 := consume_used hash maxBytes fl _ now3 raw contrato3
      acepta3 ip3 cid3 c64c _ hraw hp3 hs3 hf2 (by simp)
    rw [h3]
    constructor
    · by_cases hx : ({ t with used_at := some now1, ip_used := ip1 }
          : TokenRow).expires_at < now3 <;> simp [hx, isSuccess]
    · rfl

/-- Witness for C2 (amended): the concrete fresh token consumed at t =
50 and again at t = 60 yields success then `ALREADY_USED` with a single
contract row. -/
theorem C2_witness :
    (consumeAndSign idHash 100 .noFail freshState 50 tkRaw
      (some "AAAAAAAAAAAA") none none 7).1
      = .success 7 12345678 98765432 ∧
    (consumeAndSign idHash 100 .noFail
      (consumeAndSign idHash 100 .noFail freshState 50 tkRaw
        (some "AAAAAAAAAAAA") none none 7).2 60 tkRaw
      (some "AAAAAAAAAAAA") none none 8).1
      = (if freshRow.expires_at < 60 then FirmarResult.expired
         else FirmarResult.alreadyUsed) ∧
    (consumeAndSign idHash 100 .noFail freshState 50 tkRaw
      (some "AAAAAAAAAAAA") none none 7).2.contratos.length
      = freshState.contratos.length + 1 := by
  have h := C2_second_consume_blocked idHash 100 freshState tkRaw freshRow
    50 60 (some "AAAAAAAAAAAA") (some "AAAAAAAAAAAA") none none none none
    7 8 "AAAAAAAAAAAA" "AAAAAAAAAAAA" (by decide) (by decide) rfl
    (by decide) (by decide) (by decide) (by decide) (by decide)
  exact ⟨h.1, h.2.1, h.2.2.2.1⟩

/-- C1: the `FOR UPDATE` row lock serializes concurrent `ConsumeAndSign`
transactions on the same token, so their observable behaviour is a
serialized schedule (`runConsumes`), each transaction reading the clock
while it holds the lock. For every such schedule of well-formed calls on
a fresh token, at least one of which runs before expiry: exactly one
call commits and returns success, every other call observes `EXPIRED`
or `ALREADY_USED` once it acquires the lock after the winner commits,
and exactly one contract row is added — never two rows for one
token-consumption event. -/
theorem C1_exactly_one_winner (hash : String → String) (maxBytes : Nat)
    (raw : String) (st : DBState) (t : TokenRow)
    (calls : List FirmarCall)
    (hraw : tokenParamOk raw = true)
    (hfind : findToken st (hash raw) = some t)
    (hfresh : t.used_at = none)
    (hpre : ∀ c ∈ calls, preOk maxBytes c = true)
    (hlive : ∃ c ∈ calls, ¬ t.expires_at < c.now) :
    (runConsumes hash maxBytes raw calls st).1.countP isSuccess = 1 ∧
    (∀ r ∈ (runConsumes hash maxBytes raw calls st).1,
      isSuccess r = true ∨ r = FirmarResult.expired
        ∨ r = FirmarResult.alreadyUsed) ∧
    (runConsumes hash maxBytes raw calls st).2.contratos.length
      = st.contratos.length + 1 := by
  revert hpre hlive
  induction calls with
  | nil =>
    intro _ hlive
    obtain ⟨c, hc, _⟩ := hlive
    exact absurd hc (List.not_mem_nil c)
  | cons c cs ih =>
    intro hpre hlive
    obtain ⟨c64, hp, hs⟩ :=
      preOk_elim maxBytes c (hpre c (List.mem_cons_self c cs))
    by_cases hx : t.expires_at < c.now
    · have hce := consume_expired hash maxBytes DBFail.noFail st c.now raw
        c.contrato c.acepta c.ip c.cid c64 t hraw hp hs hfind hx
      have hlive2 : ∃ d ∈ cs, ¬ t.expires_at < d.now := by
        obtain ⟨d, hd, hnd⟩ := hlive
        rcases List.mem_cons.mp hd with rfl | hd2
        · exact absurd hx hnd
        · exact ⟨d, hd2, hnd⟩
      obtain ⟨ih1, ih2, ih3⟩ :=
        ih (fun x hx2 => hpre x (List.mem_cons_of_mem c hx2)) hlive2
      rw [runConsumes_cons, hce]
      dsimp only
      refine ⟨?_, ?_, ?_⟩
      · rw [List.countP_cons_of_neg]
        · exact ih1
        · simp [isSuccess]
      · intro r hr
        rcases List.mem_cons.mp hr with hr1 | hr2
        · exact Or.inr (Or.inl hr1)
        · exact ih2 r hr2
      · exact ih3
    · have hsu := consume_success hash maxBytes st c.now raw c.contrato
        c.acepta c.ip c.cid c64 t hraw hp hs hfind hfresh hx
      have hf2 := findToken_after_success st t (hash raw) c.now c.ip c.cid
        (stripDataUrlPfx c64) hfind
      have hrest := runConsumes_used hash maxBytes raw
        (markUsed (insertContrato st ⟨c.cid, t.rut_jugador, t.rut_apoderado,
          c.now, stripDataUrlPfx c64⟩) t.id c.now c.ip)
        { t with used_at := some c.now, ip_used := c.ip }
        hraw hf2 (by simp) cs
        (fun x hx2 => hpre x (List.mem_cons_of_mem c hx2))
      have hz : (runConsumes hash maxBytes raw cs
          (markUsed (insertContrato st ⟨c.cid, t.rut_jugador,
            t.rut_apoderado, c.now, stripDataUrlPfx c64⟩)
            t.id c.now c.ip)).1.countP isSuccess = 0 :=
        List.countP_eq_zero.mpr (fun a ha => by
          rcases hrest.1 a ha with h | h <;> simp [h, isSuccess])
      rw [runConsumes_cons, hsu]
      dsimp only
      refine ⟨?_, ?_, ?_⟩
      · rw [List.countP_cons_of_pos]
        · rw [hz]
        · rfl
      · intro r hr
        rcases List.mem_cons.mp hr with hr1 | hr2
        · exact Or.inl (by rw [hr1]; rfl)
        · rcases hrest.1 r hr2 with h | h
          · exact Or.inr (Or.inl h)
          · exact Or.inr (Or.inr h)
      · rw [hrest.2]
        simp [markUsed, insertContrato]

/-- Witness for C1: three serialized calls on the concrete fresh token
(expiry 100): the first holds the lock at t = 200 (expired), the second
at t = 50 (the winner) and the third at t = 60 (already used); one
success, one contract row. -/
theorem C1_witness :
    (runConsumes idHash 100 tkRaw
      [⟨200, some "AAAAAAAAAAAA", none, none, 7⟩,
       ⟨50, some "AAAAAAAAAAAA", none, none, 8⟩,
       ⟨60, some "AAAAAAAAAAAA", none, none, 9⟩] freshState).1.countP
        isSuccess = 1 ∧
    (∀ r ∈ (runConsumes idHash 100 tkRaw
      [⟨200, some "AAAAAAAAAAAA", none, none, 7⟩,
       ⟨50, some "AAAAAAAAAAAA", none, none, 8⟩,
       ⟨60, some "AAAAAAAAAAAA", none, none, 9⟩] freshState).1,
      isSuccess r = true ∨ r = FirmarResult.expired
        ∨ r = FirmarResult.alreadyUsed) ∧
    (runConsumes idHash 100 tkRaw
      [⟨200, some "AAAAAAAAAAAA", none, none, 7⟩,
       ⟨50, some "AAAAAAAAAAAA", none, none, 8⟩,
       ⟨60, some "AAAAAAAAAAAA", none, none, 9⟩] freshState).2.contratos.length
      = freshState.contratos.length + 1 :=
  C1_exactly_one_winner idHash 100 tkRaw freshState freshRow
    [⟨200, some "AAAAAAAAAAAA", none, none, 7⟩,
     ⟨50, some "AAAAAAAAAAAA", none, none, 8⟩,
     ⟨60, some "AAAAAAAAAAAA", none, none, 9⟩]
    (by decide) (by decide) rfl (by decide) (by decide)
